import Mathlib

/-!
Shallow embedding of `superpyrate/pipeline.py` (the superpyrate AIS ingestion
pipeline) in Lean 4, together with theorems settling the frozen claims about
its specification.

The embedding models:
* the posixpath helpers the module uses (`os.path.splitext`, `os.path.split`,
  `os.path.dirname`, `os.path.join`, `str.lower`, `str.join`);
* `get_working_folder` with its environment-variable behaviour;
* the per-task pure content of each `run` method: which sub-tasks are spawned,
  what marker content is written, which SQL strings are issued;
* the two-attempt bulk-copy retry loop of `ValidMessagesToDatabase.run`;
* a small transactional action semantics (pending writes become durable only
  at an explicit commit) for the atomicity claims.
-/

namespace Superpyrate

/-- Index of the last occurrence of a character in a list, scanning with an
explicit position counter (returns `none` when absent), mirroring Python's
`str.rfind` result of `-1`/index. -/
def lastIdxOfAux (c : Char) : List Char → Nat → Option Nat → Option Nat
  | [], _, best => best
  | ch :: rest, i, best =>
      lastIdxOfAux c rest (i + 1) (if ch = c then some i else best)

/-- Last index of character `c` in `cs`, or `none`. -/
def lastIdxOf (cs : List Char) (c : Char) : Option Nat :=
  lastIdxOfAux c cs 0 none

/-- Model of Python `posixpath.splitext`: split off the extension at the last
dot that lies after the last path separator, except that a basename made
entirely of leading dots has no extension. -/
def splitext (p : String) : String × String :=
  let cs := p.toList
  let base := match lastIdxOf cs '/' with
    | none => 0
    | some s => s + 1
  match lastIdxOf cs '.' with
  | none => (p, "")
  | some d =>
      if base ≤ d then
        if ((cs.drop base).take (d - base)).any (fun ch => ch != '.') then
          (String.mk (cs.take d), String.mk (cs.drop d))
        else (p, "")
      else (p, "")

/-- Model of Python `posixpath.dirname`: everything before the last separator,
with trailing separators stripped unless the head is entirely separators. -/
def dirname (p : String) : String :=
  let cs := p.toList
  match lastIdxOf cs '/' with
  | none => ""
  | some i =>
      let head := cs.take (i + 1)
      if head.all (fun ch => ch == '/') then String.mk head
      else String.mk ((head.reverse.dropWhile (fun ch => ch == '/')).reverse)

/-- Model of Python `posixpath.split`: `(dirname-like head, basename tail)`. -/
def splitPath (p : String) : String × String :=
  let cs := p.toList
  match lastIdxOf cs '/' with
  | none => ("", p)
  | some i =>
      let head := cs.take (i + 1)
      let tail := cs.drop (i + 1)
      (if head.all (fun ch => ch == '/') then String.mk head
       else String.mk ((head.reverse.dropWhile (fun ch => ch == '/')).reverse),
       String.mk tail)

/-- Whether a string begins with the separator character. -/
def startsWithSlash (s : String) : Bool :=
  match s.toList with
  | [] => false
  | c :: _ => c == '/'

/-- Whether a string ends with the separator character. -/
def endsWithSlash (s : String) : Bool :=
  match s.toList.reverse with
  | [] => false
  | c :: _ => c == '/'

/-- Model of two-argument Python `posixpath.join`. -/
def pathJoin (a b : String) : String :=
  if startsWithSlash b then b
  else if a == "" || endsWithSlash a then a ++ b
  else a ++ "/" ++ b

/-- Model of variadic Python `posixpath.join`, folding the two-argument form. -/
def pathJoinMany (a : String) (rest : List String) : String :=
  rest.foldl pathJoin a

/-- ASCII lowering of one string, as Python `str.lower` behaves on the ASCII
identifiers used in this module. -/
def pyLower (s : String) : String :=
  String.mk (s.toList.map Char.toLower)

/-- Model of Python `sep.join(xs)`. -/
def pyJoin (sep : String) : List String → String
  | [] => ""
  | x :: rest => rest.foldl (fun acc y => acc ++ sep ++ y) x

/-- Python-level errors surfaced by `get_working_folder` and the task output
computations. -/
inductive PyError where
  | keyError : String → PyError
  | runtimeError : String → PyError
deriving DecidableEq, Repr

/-- Embedding of `get_working_folder(folder_of_zips=None)`. The `luigiwork`
argument is `os.environ` at key `LUIGIWORK`: `none` when the variable is
unset (Python raises `KeyError`), `some s` when set to `s`. A non-empty value
is returned as is; an empty value falls back to the grandparent directory of
`folder_of_zips`, raising `RuntimeError` when that argument is `None`. -/
def get_working_folder (luigiwork : Option String) (folder_of_zips : Option String) :
    Except PyError String :=
  match luigiwork with
  | none => Except.error (PyError.keyError "LUIGIWORK")
  | some ev =>
      if ev = "" then
        match folder_of_zips with
        | none => Except.error (PyError.runtimeError "No working folder defined")
        | some f => Except.ok (dirname (dirname f))
      else Except.ok ev

/-- Embedding of `ProcessCsv.output()`: the marker path
`<working>/tmp/processcsv/<archive-name>`, which needs `get_working_folder()`
called with no argument. -/
def processCsvOutput (luigiwork : Option String) (zip_file : String) :
    Except PyError String :=
  (get_working_folder luigiwork none).map (fun rootdir =>
    pathJoinMany rootdir ["tmp", "processcsv", (splitext (splitPath zip_file).2).1])

/-- Descriptor of a `ValidMessages(csvfile)` task. -/
structure ValidMessagesTask where
  csvfile : String
deriving DecidableEq, Repr

/-- Descriptor of a `ValidMessagesToDatabase(original_csvfile)` task. -/
structure ValidMessagesToDatabaseTask where
  original_csvfile : String
deriving DecidableEq, Repr

/-- Descriptor of a `LoadCleanedAIS(csvfile)` task. -/
structure LoadCleanedAISTask where
  csvfile : String
deriving DecidableEq, Repr

/-- Descriptor of a `MakeIndexByQuery(query, table)` task. -/
structure MakeIndexByQueryTask where
  query : String
  table : String
deriving DecidableEq, Repr

/-- A per-archive job spawned by `ProcessZipArchives.run`: either the
database-loading branch or the csv-only branch. -/
inductive BatchJob where
  | writeCsvToDb : String → String → BatchJob
  | processCsv : String → String → BatchJob
deriving DecidableEq, Repr

/-- Whether a batch job belongs to the database-loading branch. -/
def BatchJob.isDbJob : BatchJob → Bool
  | BatchJob.writeCsvToDb _ _ => true
  | BatchJob.processCsv _ _ => false

/-- Embedding of `LoadCleanedAIS.requires`: it depends on
`ValidMessagesToDatabase(self.csvfile)`. -/
def loadCleanedAISRequiredTask (t : LoadCleanedAISTask) : ValidMessagesToDatabaseTask :=
  ValidMessagesToDatabaseTask.mk t.csvfile

/-- Embedding of `ValidMessagesToDatabase.requires`: it depends on
`ValidMessages(self.original_csvfile)`. -/
def validMessagesToDatabaseRequiredTask (t : ValidMessagesToDatabaseTask) :
    ValidMessagesTask :=
  ValidMessagesTask.mk t.original_csvfile

/-- The `cols` class attribute of `ValidMessagesToDatabase`. -/
def vmtdCols : List String :=
  ["MMSI", "Time", "Message_ID", "Navigational_status", "SOG",
   "Longitude", "Latitude", "COG", "Heading", "IMO", "Draught",
   "Destination", "Vessel_Name",
   "ETA_month", "ETA_day", "ETA_hour", "ETA_minute"]

/-- The `columns` class attribute: each of `cols` lowercased. -/
def vmtdColumns : List String :=
  vmtdCols.map pyLower

/-- The `table` class attribute of `ValidMessagesToDatabase`. -/
def vmtdTable : String := "ais_clean"

/-- The `null_values` class attribute `(None, "")`, with Python `None`
rendered as `Option.none`. -/
def vmtdNullValues : List (Option String) := [none, some ""]

/-- The `column_separator` class attribute. -/
def vmtdColumnSeparator : String := ","

/-- The column-name selection inside `ValidMessagesToDatabase.copy`: since
`columns` holds plain strings, the first branch of the `isinstance` test
applies and the names are `columns` unchanged. -/
def vmtdCopyColumnNames : List String := vmtdColumns

/-- The SQL string built by `ValidMessagesToDatabase.copy` (its `format` call
has a third, unused argument `clean_file`). -/
def vmtdCopySql : String :=
  "COPY " ++ vmtdTable ++ " (" ++ pyJoin "," vmtdColumns ++
    ") FROM STDIN WITH (FORMAT csv, HEADER true)"

/-- Outcome of one `cursor.copy_expert` call inside the retry loop of
`ValidMessagesToDatabase.run`: success, a `psycopg2.ProgrammingError` whose
`pgcode` is `UNDEFINED_TABLE`, a `ProgrammingError` with another code, or an
exception of any other class (which the `except` clause does not catch). -/
inductive CopyResult where
  | ok
  | progUndefinedTable
  | progOther
  | otherError
deriving DecidableEq, Repr

/-- Observable trace of the bulk-copy retry loop: how many copy attempts ran,
how many `create_table` calls and `connection.reset()` calls happened, and
whether the loop finished normally or re-raised an exception. -/
structure RunTrace where
  copyAttempts : Nat
  createTableCalls : Nat
  connectionResets : Nat
  result : Except CopyResult Unit
deriving Repr

/-- Embedding of the `for attempt in range(2)` loop body of
`ValidMessagesToDatabase.run`: a successful copy breaks out; a
`ProgrammingError` with `UNDEFINED_TABLE` on `attempt == 0` resets the
connection, creates the table and continues; every other failure re-raises. -/
def runAttempts (results : Nat → CopyResult) :
    List Nat → Nat → Nat → Nat → RunTrace
  | [], attempts, creates, resets =>
      RunTrace.mk attempts creates resets (Except.ok ())
  | a :: rest, attempts, creates, resets =>
      match results a with
      | CopyResult.ok =>
          RunTrace.mk (attempts + 1) creates resets (Except.ok ())
      | CopyResult.progUndefinedTable =>
          if a = 0 then
            runAttempts results rest (attempts + 1) (creates + 1) (resets + 1)
          else
            RunTrace.mk (attempts + 1) creates resets
              (Except.error CopyResult.progUndefinedTable)
      | CopyResult.progOther =>
          RunTrace.mk (attempts + 1) creates resets
            (Except.error CopyResult.progOther)
      | CopyResult.otherError =>
          RunTrace.mk (attempts + 1) creates resets
            (Except.error CopyResult.otherError)

/-- The whole retry loop of `ValidMessagesToDatabase.run`, iterating over
`range(2)` with `results n` the outcome of the copy attempt numbered `n`. -/
def vmtdCopyRun (results : Nat → CopyResult) : RunTrace :=
  runAttempts results (List.range 2) 0 0 0

/-- The row inserted into `ais_sources` by `LoadCleanedAIS.run`. -/
structure SourceData where
  filename : String
  ext : String
  invalid : Nat
  clean : Nat
  dirty : Nat
  source : Nat
deriving DecidableEq, Repr

/-- Embedding of the `source_data` dictionary built by `LoadCleanedAIS.run`:
the filename and its extension from the task parameter, and the four literal
zero counters. -/
def loadCleanedAISSourceData (csvfile : String) : SourceData :=
  SourceData.mk csvfile (splitext csvfile).2 0 0 0 0

/-- Durable (committed) database state: rows of `ais_clean`, rows of
`ais_sources`, and the marker rows written by `target.touch`. -/
structure PgState where
  cleanRows : List (List String)
  sourcesRows : List SourceData
  markerRows : List String
deriving DecidableEq, Repr

/-- Uncommitted per-connection state: everything written on the connection
since the last commit, still invisible durably. -/
structure ConnState where
  pendingRows : List (List String)
  pendingSources : List SourceData
  pendingMarkers : List String
deriving DecidableEq, Repr

/-- A freshly opened connection with no pending writes. -/
def emptyConn : ConnState := ConnState.mk [] [] []

/-- Database-visible actions a task run performs on its single connection.
All actions of one script act on the same connection, as the Python `run`
methods pass the one `connection` object to both the data write and the
`touch`. -/
inductive DbAction where
  | copyRows : List (List String) → DbAction
  | insertSource : SourceData → DbAction
  | touchMarker : String → DbAction
  | commit : DbAction
deriving DecidableEq, Repr

/-- One action applied to committed state and connection state: writes stay
pending on the connection; only `commit` makes the pending writes durable. -/
def applyAction (pg : PgState) (conn : ConnState) : DbAction → PgState × ConnState
  | DbAction.copyRows rs =>
      (pg, ConnState.mk (conn.pendingRows ++ rs) conn.pendingSources conn.pendingMarkers)
  | DbAction.insertSource sd =>
      (pg, ConnState.mk conn.pendingRows (conn.pendingSources ++ [sd]) conn.pendingMarkers)
  | DbAction.touchMarker t =>
      (pg, ConnState.mk conn.pendingRows conn.pendingSources (conn.pendingMarkers ++ [t]))
  | DbAction.commit =>
      (PgState.mk (pg.cleanRows ++ conn.pendingRows)
        (pg.sourcesRows ++ conn.pendingSources)
        (pg.markerRows ++ conn.pendingMarkers), emptyConn)

/-- Execute a list of actions in order; stopping the fold early models a
process failure at that point, after which the connection (and its pending
writes) is simply discarded. -/
def execActions (pg : PgState) (conn : ConnState) : List DbAction → PgState × ConnState
  | [] => (pg, conn)
  | a :: rest =>
      let next := applyAction pg conn a
      execActions next.1 next.2 rest

/-- Ordered actions of a successful `ValidMessagesToDatabase.run` on its one
connection: bulk-copy the rows, `self.output().touch(connection)`, then
`connection.commit()`. -/
def validMessagesToDatabaseScript (rows : List (List String)) (taskId : String) :
    List DbAction :=
  [DbAction.copyRows rows, DbAction.touchMarker taskId, DbAction.commit]

/-- Ordered actions of a successful `LoadCleanedAIS.run` on its one
connection: insert the bookkeeping row, `self.output().touch(connection)`,
then `connection.commit()`. -/
def loadCleanedAISScript (csvfile : String) (taskId : String) : List DbAction :=
  [DbAction.insertSource (loadCleanedAISSourceData csvfile),
   DbAction.touchMarker taskId, DbAction.commit]

/-- The csv paths collected by the listing loops of `ProcessCsv.run` and
`WriteCsvToDb.run`: entries of the unzipped folder whose extension is `.csv`,
each joined onto the folder path, in listing order. -/
def listOfCsvPaths (inputDir : String) (entries : List String) : List String :=
  (entries.filter (fun f => (splitext f).2 == ".csv")).map (fun f => pathJoin inputDir f)

/-- Embedding of `ProcessCsv.run`: the spawned `ValidMessages` tasks and the
marker content written afterwards (the newline-joined csv paths). -/
def processCsvRun (inputDir : String) (entries : List String) :
    List ValidMessagesTask × String :=
  ((listOfCsvPaths inputDir entries).map ValidMessagesTask.mk,
   pyJoin "\n" (listOfCsvPaths inputDir entries))

/-- Embedding of `WriteCsvToDb.run`: the spawned `LoadCleanedAIS` tasks and
the marker content written afterwards (the newline-joined csv paths). -/
def writeCsvToDbRun (inputDir : String) (entries : List String) :
    List LoadCleanedAISTask × String :=
  ((listOfCsvPaths inputDir entries).map LoadCleanedAISTask.mk,
   pyJoin "\n" (listOfCsvPaths inputDir entries))

/-- The archive list collected by `ProcessZipArchives.run`: directory entries
whose extension is `.zip`, in listing order. -/
def processZipArchivesArchives (listing : List String) : List String :=
  listing.filter (fun e => (splitext e).2 == ".zip")

/-- Embedding of `ProcessZipArchives.run`: one `WriteCsvToDb` job per archive
when `with_db` is true, one `ProcessCsv` job per archive otherwise, and the
marker content written afterwards, which is `"{}".format(self.folder_of_zips)`,
i.e. just the folder path. -/
def processZipArchivesRun (withDb : Bool) (shell : String) (listing : List String)
    (folder_of_zips : String) : List BatchJob × String :=
  (if withDb then
     (processZipArchivesArchives listing).map (fun a => BatchJob.writeCsvToDb a shell)
   else
     (processZipArchivesArchives listing).map (fun a => BatchJob.processCsv a shell),
   folder_of_zips)

/-- The queries built by `MakeAllIndices.run` from the table's index
specification, one per `(index_name, column_list)` pair. -/
def makeAllIndicesQueries (table : String) (indices : List (String × List String)) :
    List String :=
  indices.map (fun p =>
    "CREATE INDEX IF NOT EXISTS \"" ++ (pyLower table ++ "_" ++ p.1) ++
      "\" ON \"" ++ table ++ "\" USING btree (" ++
      pyJoin "," (p.2.map (fun s => "\"" ++ pyLower s ++ "\"")) ++ ")")

/-- Embedding of the fan-out of `MakeAllIndices.run`: one `MakeIndexByQuery`
task per built query. -/
def makeAllIndicesSpawn (table : String) (indices : List (String × List String)) :
    List MakeIndexByQueryTask :=
  (makeAllIndicesQueries table indices).map (fun q => MakeIndexByQueryTask.mk q table)

/-- The marker content written by `MakeAllIndices.run`: `self.table`. -/
def makeAllIndicesMarkerContent (table : String) : String := table

set_option maxRecDepth 8192 in
/-- Claim C7: the bulk-copy command is exactly
`COPY ais_clean (<17 lowercased AIS columns>) FROM STDIN WITH (FORMAT csv,
HEADER true)`, the column list being the configured 17 AIS columns lowercased
and comma-joined; the loader's column separator is the single comma and its
null values are exactly `None` and the empty string. -/
theorem c7_bulk_copy_wire_contract :
    vmtdCopySql =
      "COPY ais_clean (mmsi,time,message_id,navigational_status,sog,longitude,latitude,cog,heading,imo,draught,destination,vessel_name,eta_month,eta_day,eta_hour,eta_minute) FROM STDIN WITH (FORMAT csv, HEADER true)" ∧
    vmtdColumns.length = 17 ∧
    vmtdCopyColumnNames = vmtdColumns ∧
    vmtdColumnSeparator = "," ∧
    vmtdNullValues = [none, some ""] := by
  refine ⟨?_, ?_, rfl, rfl, rfl⟩ <;> decide

/-- Claim C9: the bookkeeping row records the filename and extension of the
input, but its invalid, clean, dirty and source fields are the constant 0,
independent of the file contents or validation outcome (the construction
takes only the file path). -/
theorem c9_source_data_constant_counts (csvfile : String) :
    (loadCleanedAISSourceData csvfile).filename = csvfile ∧
    (loadCleanedAISSourceData csvfile).ext = (splitext csvfile).2 ∧
    (loadCleanedAISSourceData csvfile).invalid = 0 ∧
    (loadCleanedAISSourceData csvfile).clean = 0 ∧
    (loadCleanedAISSourceData csvfile).dirty = 0 ∧
    (loadCleanedAISSourceData csvfile).source = 0 :=
  ⟨rfl, rfl, rfl, rfl, rfl, rfl⟩

/-- Claim C10: `get_working_folder` raises `KeyError` whenever `LUIGIWORK` is
unset; returns the variable's value (ignoring the argument) when it is
non-empty; with an empty value it raises `RuntimeError` on a `None` argument
and otherwise returns the grandparent directory; and a task output path
computation (`ProcessCsv.output`) fails whenever `LUIGIWORK` is unset. -/
theorem c10_get_working_folder_behaviour :
    (∀ f, get_working_folder none f = Except.error (PyError.keyError "LUIGIWORK")) ∧
    (∀ s f, s ≠ "" → get_working_folder (some s) f = Except.ok s) ∧
    get_working_folder (some "") none
        = Except.error (PyError.runtimeError "No working folder defined") ∧
    (∀ p, get_working_folder (some "") (some p) = Except.ok (dirname (dirname p))) ∧
    (∀ z, processCsvOutput none z = Except.error (PyError.keyError "LUIGIWORK")) := by
  refine ⟨fun f => rfl, fun s f hs => ?_, rfl, fun p => rfl, fun z => rfl⟩
  simp [get_working_folder, hs]

/-- Concrete instance of claim C10 at a non-empty environment value. -/
theorem c10_witness :
    get_working_folder (some "/work") (some "/d/z") = Except.ok "/work" :=
  c10_get_working_folder_behaviour.2.1 "/work" (some "/d/z") (by decide)

/-- Claim C5: with the database flag false, the entry point spawns only
`ProcessCsv` jobs per archive (no database-branch jobs); with the flag true,
it spawns one `WriteCsvToDb` job per archive. -/
theorem c5_with_db_branching (shell : String) (listing : List String) (folder : String) :
    (processZipArchivesRun false shell listing folder).1
        = (processZipArchivesArchives listing).map (fun a => BatchJob.processCsv a shell) ∧
    (∀ j ∈ (processZipArchivesRun false shell listing folder).1, j.isDbJob = false) ∧
    (processZipArchivesRun true shell listing folder).1
        = (processZipArchivesArchives listing).map (fun a => BatchJob.writeCsvToDb a shell) ∧
    (∀ j ∈ (processZipArchivesRun true shell listing folder).1, j.isDbJob = true) := by
  refine ⟨rfl, ?_, rfl, ?_⟩
  · intro j hj
    have he : (processZipArchivesRun false shell listing folder).1
        = (processZipArchivesArchives listing).map (fun a => BatchJob.processCsv a shell) := rfl
    rw [he] at hj
    obtain ⟨a, _, rfl⟩ := List.mem_map.mp hj
    rfl
  · intro j hj
    have he : (processZipArchivesRun true shell listing folder).1
        = (processZipArchivesArchives listing).map (fun a => BatchJob.writeCsvToDb a shell) := rfl
    rw [he] at hj
    obtain ⟨a, _, rfl⟩ := List.mem_map.mp hj
    rfl

/-- Concrete instance of claim C5: the job spawned for a zip archive in the
no-database branch is not a database job. -/
theorem c5_witness : (BatchJob.processCsv "a.zip" "sh").isDbJob = false :=
  (c5_with_db_branching "sh" ["a.zip"] "/d").2.1
    (BatchJob.processCsv "a.zip" "sh") (by decide)

/-- Claim C3: for an unzipped folder listing, the fan-out spawns exactly one
`ValidMessages` task per `.csv` entry in the no-database branch and one
`LoadCleanedAIS` task per `.csv` entry in the database branch (each chaining
through `ValidMessagesToDatabase` to a `ValidMessages` task on the same
path), and the batch manifest written afterwards newline-joins exactly those
full source paths. -/
theorem c3_fanout_completeness (inputDir : String) (entries : List String) :
    (processCsvRun inputDir entries).1.length
        = (entries.filter (fun f => (splitext f).2 == ".csv")).length ∧
    (writeCsvToDbRun inputDir entries).1.length
        = (entries.filter (fun f => (splitext f).2 == ".csv")).length ∧
    (processCsvRun inputDir entries).1.map ValidMessagesTask.csvfile
        = listOfCsvPaths inputDir entries ∧
    (writeCsvToDbRun inputDir entries).1.map LoadCleanedAISTask.csvfile
        = listOfCsvPaths inputDir entries ∧
    (writeCsvToDbRun inputDir entries).1.map
        (fun t => validMessagesToDatabaseRequiredTask (loadCleanedAISRequiredTask t))
        = (listOfCsvPaths inputDir entries).map ValidMessagesTask.mk ∧
    (processCsvRun inputDir entries).2 = pyJoin "\n" (listOfCsvPaths inputDir entries) ∧
    (writeCsvToDbRun inputDir entries).2 = pyJoin "\n" (listOfCsvPaths inputDir entries) := by
  refine ⟨?_, ?_, ?_, ?_, ?_, rfl, rfl⟩ <;>
    simp [processCsvRun, writeCsvToDbRun, listOfCsvPaths, List.map_map,
      loadCleanedAISRequiredTask, validMessagesToDatabaseRequiredTask, Function.comp_def]

/-- Counterexample to claim C4 as stated: the `tmp/archives/<folder-name>`
marker written by `ProcessZipArchives.run` contains just the folder path, not
the newline-joined list of archive paths the task processed; likewise the
`tmp/database/create_<table>_indexes.txt` marker contains just the table
name, not the newline-joined queries it issued. -/
theorem c4_counterexample :
    (processZipArchivesRun true "sh" ["/data/zips/a.zip", "/data/zips/b.zip"] "/data/zips").2
        = "/data/zips" ∧
    pyJoin "\n" (processZipArchivesArchives ["/data/zips/a.zip", "/data/zips/b.zip"])
        = "/data/zips/a.zip\n/data/zips/b.zip" ∧
    (processZipArchivesRun true "sh" ["/data/zips/a.zip", "/data/zips/b.zip"] "/data/zips").2
        ≠ pyJoin "\n" (processZipArchivesArchives ["/data/zips/a.zip", "/data/zips/b.zip"]) ∧
    makeAllIndicesMarkerContent "ais_clean" = "ais_clean" ∧
    makeAllIndicesMarkerContent "ais_clean"
        ≠ pyJoin "\n" (makeAllIndicesQueries "ais_clean" [("mmsi_idx", ["MMSI"])]) := by
  refine ⟨rfl, ?_, ?_, rfl, ?_⟩ <;> decide

/-- Claim C4 (amended): the `tmp/processcsv/<archive-name>` and
`tmp/writecsv/<archive-name>` markers contain the newline-joined list of the
csv paths the task processed; the `tmp/archives/<folder-name>` marker
contains the folder-of-zips path itself; and the
`tmp/database/create_<table>_indexes.txt` marker contains the table name. -/
theorem c4_marker_contents (inputDir folder shell table : String)
    (entries listing : List String) (withDb : Bool) :
    (processCsvRun inputDir entries).2
        = pyJoin "\n" ((processCsvRun inputDir entries).1.map ValidMessagesTask.csvfile) ∧
    (writeCsvToDbRun inputDir entries).2
        = pyJoin "\n" ((writeCsvToDbRun inputDir entries).1.map LoadCleanedAISTask.csvfile) ∧
    (processZipArchivesRun withDb shell listing folder).2 = folder ∧
    makeAllIndicesMarkerContent table = table := by
  refine ⟨?_, ?_, rfl, rfl⟩ <;>
    simp [processCsvRun, writeCsvToDbRun, List.map_map, Function.comp_def]

/-- Claim C6: expanding the folder of archives keeps exactly the entries with
extension `.zip`, in directory listing order (the filtered list is a sublist
of the listing, so no reordering), with one job per kept entry and none for
any other entry. -/
theorem c6_expand_zip_filter (listing : List String) (withDb : Bool)
    (shell folder : String) :
    List.Sublist (processZipArchivesArchives listing) listing ∧
    (∀ e, e ∈ processZipArchivesArchives listing ↔
        e ∈ listing ∧ (splitext e).2 = ".zip") ∧
    (processZipArchivesRun withDb shell listing folder).1.length
        = (processZipArchivesArchives listing).length ∧
    (∀ i : Nat, (processZipArchivesRun withDb shell listing folder).1[i]?
        = ((processZipArchivesArchives listing)[i]?).map
            (fun a => if withDb then BatchJob.writeCsvToDb a shell
                      else BatchJob.processCsv a shell)) := by
  refine ⟨List.filter_sublist listing, ?_, ?_, ?_⟩
  · intro e
    simp [processZipArchivesArchives, List.mem_filter]
  · cases withDb <;> simp [processZipArchivesRun]
  · intro i
    cases withDb <;> simp [processZipArchivesRun, List.getElem?_map]

/-- Concrete instance of claim C6: a zip entry of the listing is kept by the
expansion. -/
theorem c6_witness : "b.zip" ∈ processZipArchivesArchives ["b.zip", "a.txt", "a.zip"] :=
  ((c6_expand_zip_filter ["b.zip", "a.txt", "a.zip"] true "sh" "/f").2.1 "b.zip").mpr
    ⟨by decide, by decide⟩

/-- Claim C2: the bulk-copy run attempts the copy at most twice; a first
failure with the table-missing code resets the connection, creates the table
and retries exactly once, the second attempt's failure (of any kind,
table-missing included) being re-raised; any other first failure is re-raised
with no table creation; a first success means a single attempt. -/
theorem c2_bounded_retry (results : Nat → CopyResult) :
    (vmtdCopyRun results).copyAttempts ≤ 2 ∧
    (results 0 = CopyResult.ok →
        vmtdCopyRun results = RunTrace.mk 1 0 0 (Except.ok ())) ∧
    (results 0 = CopyResult.progUndefinedTable →
        (vmtdCopyRun results).connectionResets = 1 ∧
        (vmtdCopyRun results).createTableCalls = 1 ∧
        (vmtdCopyRun results).copyAttempts = 2 ∧
        (vmtdCopyRun results).result =
          (match results 1 with
           | CopyResult.ok => Except.ok ()
           | e => Except.error e)) ∧
    (results 0 = CopyResult.progOther →
        vmtdCopyRun results = RunTrace.mk 1 0 0 (Except.error CopyResult.progOther)) ∧
    (results 0 = CopyResult.otherError →
        vmtdCopyRun results = RunTrace.mk 1 0 0 (Except.error CopyResult.otherError)) := by
  have hrange : List.range 2 = [0, 1] := rfl
  cases h0 : results 0 <;> cases h1 : results 1 <;>
    simp [vmtdCopyRun, hrange, runAttempts, h0, h1]

/-- Concrete instance of claim C2: with the table missing on both attempts,
the copy is attempted exactly twice, the table is created once, and the
second table-missing failure is re-raised. -/
theorem c2_witness :
    (vmtdCopyRun (fun _ => CopyResult.progUndefinedTable)).copyAttempts = 2 ∧
    (vmtdCopyRun (fun _ => CopyResult.progUndefinedTable)).createTableCalls = 1 ∧
    (vmtdCopyRun (fun _ => CopyResult.progUndefinedTable)).result
        = Except.error CopyResult.progUndefinedTable := by
  have h := (c2_bounded_retry (fun _ => CopyResult.progUndefinedTable)).2.2.1 rfl
  exact ⟨h.2.2.1, h.2.1, h.2.2.2⟩

/-- Claim C1: in both bulk-load tasks the marker touch is an action of the
same single-connection script as the data write, placed before the final
commit (positions 1 and 2 of each three-action script); executing any prefix
that stops before the commit leaves the durable database state unchanged
(neither rows nor marker persisted), while the full script persists both. -/
theorem c1_atomic_marker_commit (rows : List (List String)) (csvfile taskId tid2 : String)
    (pg : PgState) (conn : ConnState) :
    (∀ n, n ≤ 2 →
        (execActions pg conn ((validMessagesToDatabaseScript rows taskId).take n)).1 = pg) ∧
    (∀ n, n ≤ 2 →
        (execActions pg conn ((loadCleanedAISScript csvfile tid2).take n)).1 = pg) ∧
    (validMessagesToDatabaseScript rows taskId)[1]? = some (DbAction.touchMarker taskId) ∧
    (validMessagesToDatabaseScript rows taskId)[2]? = some DbAction.commit ∧
    (validMessagesToDatabaseScript rows taskId).length = 3 ∧
    (loadCleanedAISScript csvfile tid2)[1]? = some (DbAction.touchMarker tid2) ∧
    (loadCleanedAISScript csvfile tid2)[2]? = some DbAction.commit ∧
    (loadCleanedAISScript csvfile tid2).length = 3 ∧
    (execActions pg emptyConn (validMessagesToDatabaseScript rows taskId)).1
        = PgState.mk (pg.cleanRows ++ rows) pg.sourcesRows (pg.markerRows ++ [taskId]) ∧
    (execActions pg emptyConn (loadCleanedAISScript csvfile tid2)).1
        = PgState.mk pg.cleanRows (pg.sourcesRows ++ [loadCleanedAISSourceData csvfile])
            (pg.markerRows ++ [tid2]) := by
  refine ⟨?_, ?_, rfl, rfl, rfl, rfl, rfl, rfl, ?_, ?_⟩
  · intro n hn
    interval_cases n <;> rfl
  · intro n hn
    interval_cases n <;> rfl
  · simp [validMessagesToDatabaseScript, execActions, applyAction, emptyConn]
  · simp [loadCleanedAISScript, execActions, applyAction, emptyConn]

/-- Concrete instance of claim C1: stopping right after the marker touch but
before the commit persists nothing. -/
theorem c1_witness :
    (execActions (PgState.mk [] [] []) emptyConn
        ((validMessagesToDatabaseScript [["431602153", "2013-02-08"]] "t1").take 2)).1
      = PgState.mk [] [] [] :=
  (c1_atomic_marker_commit [["431602153", "2013-02-08"]] "c.csv" "t1" "t2"
    (PgState.mk [] [] []) emptyConn).1 2 (by decide)

/-- Claim C8: for a supported table, the index builder emits exactly one task
per `(index_name, column_list)` pair of the specification, each issuing a
`CREATE INDEX IF NOT EXISTS` statement (hence idempotent to re-issue) named
`<table>_<index_name>` over the pair's lowercased, quoted columns. -/
theorem c8_index_builder (table : String) (indices : List (String × List String))
    (h : table = "ais_clean" ∨ table = "ais_dirty") :
    (makeAllIndicesSpawn table indices).length = indices.length ∧
    makeAllIndicesQueries table indices = indices.map (fun p =>
      "CREATE INDEX IF NOT EXISTS \"" ++ (table ++ "_" ++ p.1) ++ "\" ON \"" ++ table ++
        "\" USING btree (" ++ pyJoin "," (p.2.map (fun s => "\"" ++ pyLower s ++ "\"")) ++ ")") ∧
    makeAllIndicesSpawn table indices
        = (makeAllIndicesQueries table indices).map (fun q => MakeIndexByQueryTask.mk q table) := by
  rcases h with rfl | rfl <;>
    refine ⟨?_, ?_, rfl⟩ <;>
      simp [makeAllIndicesSpawn, makeAllIndicesQueries,
        show pyLower "ais_clean" = "ais_clean" from by decide,
        show pyLower "ais_dirty" = "ais_dirty" from by decide]

/-- Concrete instance of claim C8: the single index task built for one
specification pair issues the fully formed idempotent statement. -/
theorem c8_witness :
    makeAllIndicesQueries "ais_clean" [("mmsi_idx", ["MMSI"])]
      = ["CREATE INDEX IF NOT EXISTS \"ais_clean_mmsi_idx\" ON \"ais_clean\" USING btree (\"mmsi\")"] := by
  have h := (c8_index_builder "ais_clean" [("mmsi_idx", ["MMSI"])] (Or.inl rfl)).2.1
  rw [h]
  decide

end Superpyrate
